import Mathlib

/-!
Verification of the DIY-Smarthome EventHandler module link
(src/unnamed/part_000: the persistent-stream design with a correlation
registry). The TypeScript class is shallowly embedded: the mutable fields
become an explicit state record, the side effects of each method become an
ordered list of Action values, and the asynchronous inbound data handler
becomes a function from a decoded message to a result. The Delegate class
and the LogLevel and DetailedStatus enums live under Utils and are not part
of the given sources; where a claim depends on them they are modelled from
the spec and marked as such.
-/

namespace EventHandlerSpec

/-- JSON-like values, modelling the structured payloads the module
exchanges. Payload contents are opaque to the link logic. -/
inductive Json where
  | null
  | str (s : String)
  | num (n : Int)
  | arr (elems : List Json)
  | obj (fields : List (String × Json))

/-- One handler binding: the pair of a handler identity and an optional
invocation context identity. The source compares bindings by identity of
this pair, which the Nat identities model. -/
structure Binding where
  handler : Nat
  context : Option Nat
deriving DecidableEq, Repr

/-- Modelled from the spec: the Delegate class (Utils/Delegate/Delegate) is
not under src/. Its funcs member is an ordered collection of bindings and
bind appends one binding, duplicates allowed (append-only semantics). -/
def Delegate.bind (funcs : List Binding) (b : Binding) : List Binding :=
  funcs ++ [b]

/-- Modelled from the spec: Delegate.unbind removes exactly one matching
binding per call (the first binding equal to the given pair). -/
def Delegate.unbind (funcs : List Binding) (b : Binding) : List Binding :=
  funcs.erase b

/-- The mutable state of one EventHandler instance: the module name and
configuration, the Dispatch Table (bindings), the Correlation Registry
(pendingMessages, keyed by correlation id), the dispose guard flag, whether
the stream has been destroyed, and a counter from which fresh uuids are
drawn. -/
structure EHState where
  modulename : String
  configTimeout : Nat
  configPass : String
  debugEnabled : Bool
  bindings : List (String × List Binding)
  pendingMessages : List String
  disposed : Bool
  streamDestroyed : Bool
  uuidCounter : Nat
deriving DecidableEq

/-- Outbound request envelope, the object built in doRequest:
id, pass, modulename, eventname, timeout, payload. -/
structure ReqEnvelope where
  id : String
  pass : String
  modulename : String
  eventname : String
  timeout : Nat
  payload : Json

/-- Response envelope written back by the inbound loop:
id, modulename, statuscode, detailedstatus, content. -/
structure RespMsg where
  id : String
  modulename : String
  statuscode : Nat
  detailedstatus : String
  content : List Json

/-- One message written to the secure stream. -/
inductive OutMsg where
  | req (e : ReqEnvelope)
  | resp (r : RespMsg)

/-- Fields of a decoded inbound Eventdata envelope that the inbound loop
reads: id, eventname, timeout and (possibly absent) payload. -/
structure Eventdata where
  id : String
  eventname : String
  timeout : Nat
  payload : Option Json

/-- Outcome of running JSON.parse on one inbound chunk: the parse throws
on a malformed message, yields a falsy value (for example the literal
null), or yields an envelope. -/
inductive InMsg where
  | malformed
  | nullMsg
  | env (d : Eventdata)

/-- Observable effects of the link, in program order. -/
inductive Action where
  | connectStream
  | installHandler
  | registerPending (id : String)
  | resolvePending (id : String) (content : Json)
  | streamWrite (m : OutMsg)
  | invokeHandlers (eventname : String) (timeout : Nat) (payload : Option Json)
  | destroyStream

/-- True when the action resolves the pending entry with the given id. -/
def Action.isResolveOf (a : Action) (id : String) : Bool :=
  match a with
  | .resolvePending i _ => i == id
  | _ => false

/-- True when the action resolves any pending entry. -/
def Action.isResolve (a : Action) : Bool :=
  match a with
  | .resolvePending _ _ => true
  | _ => false

/-- True when the action writes a request envelope with the given event
name to the stream. -/
def Action.isReqWriteOf (a : Action) (en : String) : Bool :=
  match a with
  | .streamWrite (.req e) => e.eventname == en
  | _ => false

/-- True when the action destroys the stream. -/
def Action.isDestroy (a : Action) : Bool :=
  match a with
  | .destroyStream => true
  | _ => false

/-- Number of resolutions of the pending entry with the given id in a
trace. -/
def resolveCount (t : List Action) (id : String) : Nat :=
  (t.filter (fun a => a.isResolveOf id)).length

/-- Number of request writes with the given event name in a trace. -/
def reqWriteCount (t : List Action) (en : String) : Nat :=
  (t.filter (fun a => a.isReqWriteOf en)).length

/-- Number of stream destructions in a trace. -/
def destroyCount (t : List Action) : Nat :=
  (t.filter Action.isDestroy).length

/-- Lookup in the Dispatch Table, modelling Map.get on bindings (first
entry with the given key). -/
def dtGet : List (String × List Binding) → String → Option (List Binding)
  | [], _ => none
  | kv :: rest, k => if kv.fst = k then some kv.snd else dtGet rest k

/-- Map.set on the Dispatch Table: overwrite the existing entry, else
append a new one in insertion order. -/
def dtSet (table : List (String × List Binding)) (k : String)
    (v : List Binding) : List (String × List Binding) :=
  match dtGet table k with
  | some _ => table.map (fun kv => if kv.fst = k then (kv.fst, v) else kv)
  | none => table ++ [(k, v)]

/-- Map.delete on the Dispatch Table. -/
def dtDelete (table : List (String × List Binding)) (k : String) :
    List (String × List Binding) :=
  table.filter (fun kv => kv.fst != k)

/-- In-place Delegate.bind on the entry of the given key, modelling
bindings.get(eventname).bind(func, classcontext). -/
def dtBindAppend (table : List (String × List Binding)) (k : String)
    (b : Binding) : List (String × List Binding) :=
  table.map (fun kv => if kv.fst = k then (kv.fst, Delegate.bind kv.snd b) else kv)

/-- Map.set on the Correlation Registry key set (the resolver callback
itself is tracked through resolvePending actions, so only the id is
stored). -/
def pmSet (pending : List String) (id : String) : List String :=
  if id ∈ pending then pending else pending ++ [id]

/-- Map.delete on the Correlation Registry key set. -/
def pmDelete (pending : List String) (id : String) : List String :=
  pending.filter (fun x => x != id)

/-- The outcome reported by the Fan-out Invoker (Delegate.invokeAsync, not
under src/): the list of completed results and the number of unfinished
handlers. It is an uninterpreted parameter of the inbound loop. -/
def FanoutFn : Type :=
  List Binding → Nat → Option Json → List Json × Nat

/-- Result of one run of the inbound data handler: whether an exception
escaped the handler, the state afterwards, and the emitted effects. -/
structure HandleResult where
  threw : Bool
  state : EHState
  actions : List Action

/-- The value the pending branch spreads into ResponseArray at part_000
line 74: payload ?? [] replaces an absent or null payload by the empty
array before the spread. -/
def coalescePayload : Option Json → Json
  | none => Json.arr []
  | some Json.null => Json.arr []
  | some p => p

/-- Whether the ResponseArray spread of the coalesced payload succeeds:
in the host language arrays and strings are iterable and spread fine,
while numbers, booleans and plain objects are not iterable, so the
spread throws a TypeError. -/
def Json.canSpread : Json → Bool
  | Json.arr _ => true
  | Json.str _ => true
  | _ => false

/-- The inbound data handler installed by init (part_000 lines 66 to 91).
JSON.parse throws on a malformed chunk (no try/catch in the source, so the
exception escapes before any mutation); a falsy decode returns silently;
an id matching a pending entry builds a ResponseArray by spreading
payload ?? [] — a spread of a non-iterable payload throws before the
resolver call and before the delete at line 75, leaving the entry pending;
a successful spread resolves the entry, deletes it and returns; otherwise
an event with no binding entry returns silently, and an event with
bindings is fanned out and a response envelope is written back. -/
def handleData (fanout : FanoutFn) (s : EHState) (m : InMsg) : HandleResult :=
  match m with
  | .malformed => ⟨true, s, []⟩
  | .nullMsg => ⟨false, s, []⟩
  | .env d =>
    if d.id ∈ s.pendingMessages then
      if (coalescePayload d.payload).canSpread then
        ⟨false, { s with pendingMessages := pmDelete s.pendingMessages d.id },
          [Action.resolvePending d.id (coalescePayload d.payload)]⟩
      else
        ⟨true, s, []⟩
    else
      match dtGet s.bindings d.eventname with
      | none => ⟨false, s, []⟩
      | some dg =>
        let out := fanout dg d.timeout d.payload
        let r : RespMsg :=
          { id := d.id
            modulename := s.modulename
            statuscode := if out.snd = 0 then 200 else 207
            detailedstatus :=
              if out.snd = 0 then "" else "PARTIAL_TIMEOUT|" ++ toString out.snd
            content := out.fst }
        ⟨false, s, [Action.invokeHandlers d.eventname d.timeout d.payload,
                    Action.streamWrite (OutMsg.resp r)]⟩

/-- Fresh correlation id drawn from the uuid counter, modelling getUUID. -/
def freshUuid (n : Nat) : String :=
  "uuid-" ++ toString n

/-- The private doRequest method (part_000 lines 215 to 232): generate a
fresh uuid, register the resolver in pendingMessages, emit the debug log
line (which itself goes through doRequest again when the Debug level passes
the configured threshold; the recursion is bounded here by fuel), then
write the request envelope. The formatted log line text is abstracted to a
fixed message object. -/
def doRequestStep (log : EHState → EHState × List Action) (s : EHState)
    (path : String) (timeout : Nat) (payload : Json) : EHState × List Action :=
  let uuid := freshUuid s.uuidCounter
  let s1 : EHState :=
    { s with uuidCounter := s.uuidCounter + 1,
             pendingMessages := pmSet s.pendingMessages uuid }
  let env : ReqEnvelope :=
    { id := uuid, pass := s.configPass, modulename := s.modulename,
      eventname := path, timeout := timeout, payload := payload }
  let logStep : EHState × List Action :=
    if s1.debugEnabled then log s1 else (s1, [])
  (logStep.fst,
    Action.registerPending uuid :: logStep.snd
      ++ [Action.streamWrite (OutMsg.req env)])

/-- Recursion knot of doRequest: at fuel zero the log sub-request is cut
off (it never terminates in the source when the Debug level passes the
threshold); otherwise the log line is one recursive kernel/log request. -/
def doRequest : Nat → EHState → String → Nat → Json → EHState × List Action
  | 0 => doRequestStep (fun s1 => (s1, []))
  | Nat.succ f => doRequestStep (fun s1 =>
      doRequest f s1 "kernel/log" s1.configTimeout
        (Json.obj [("message", Json.str "log-line")]))

/-- The public request method: requestCustomTimeout with the configured
timeout, which forwards to doRequest. -/
def request (fuel : Nat) (s : EHState) (eventname : String) (payload : Json) :
    EHState × List Action :=
  doRequest fuel s eventname s.configTimeout payload

/-- The subscribe method (part_000 lines 134 to 142): when no Dispatch
Table entry exists for the event name, create an empty Delegate and issue
a kernel/subscribe request upstream; then append the binding to the entry
of the event name. -/
def subscribe (fuel : Nat) (s : EHState) (eventname : String) (f : Nat)
    (c : Option Nat) : EHState × List Action :=
  match dtGet s.bindings eventname with
  | some _ =>
      ({ s with bindings := dtBindAppend s.bindings eventname ⟨f, c⟩ }, [])
  | none =>
      let s1 : EHState := { s with bindings := dtSet s.bindings eventname [] }
      let step := request fuel s1 "kernel/subscribe"
        (Json.obj [("eventname", Json.str eventname)])
      ({ step.fst with bindings := dtBindAppend step.fst.bindings eventname ⟨f, c⟩ },
        step.snd)

/-- The unsubscribe method (part_000 lines 150 to 163): a missing entry
returns at once; otherwise unbind one matching binding in place, then
either delete the now-empty entry and return, or issue a
kernel/unsubscribe request upstream. -/
def unsubscribe (fuel : Nat) (s : EHState) (eventname : String) (f : Nat)
    (c : Option Nat) : EHState × List Action :=
  match dtGet s.bindings eventname with
  | none => (s, [])
  | some dg =>
      let dg1 := Delegate.unbind dg ⟨f, c⟩
      let s1 : EHState := { s with bindings := dtSet s.bindings eventname dg1 }
      if dg1.length = 0 then
        ({ s1 with bindings := dtDelete s1.bindings eventname }, [])
      else
        request fuel s1 "kernel/unsubscribe"
          (Json.obj [("eventname", Json.str eventname)])

/-- The dispose method (part_000 lines 168 to 183): guarded by the
disposed flag; sets it, removes the process hooks (out of scope here),
clears all bindings, awaits a kernel/dispose request and then destroys
the stream. The await is modelled as completing, which is the path the
idempotence and counting claims are about. -/
def dispose (fuel : Nat) (s : EHState) : EHState × List Action :=
  if s.disposed then (s, [])
  else
    let s1 : EHState := { s with disposed := true, bindings := [] }
    let step := request fuel s1 "kernel/dispose" (Json.obj [])
    ({ step.fst with streamDestroyed := true },
      step.snd ++ [Action.destroyStream])

/-- The init method (part_000 lines 50 to 94): register process hooks and
the singleton (out of scope here), connect and wrap the stream, install
the inbound data handler, then send the kernel/init request through
doRequest with the configured timeout and an empty payload. -/
def init (fuel : Nat) (s : EHState) : EHState × List Action :=
  let step := doRequest fuel s "kernel/init" s.configTimeout (Json.obj [])
  (step.fst, [Action.connectStream, Action.installHandler] ++ step.snd)

/-- The Log method (part_000 lines 198 to 205): a level below the
configured threshold is a no-op (the flag argument models the comparison
against the LogLevel enum, which is not under src/); otherwise a
kernel/log request carries the formatted line, abstracted to a fixed
message object. -/
def Log (fuel : Nat) (s : EHState) (levelBelowThreshold : Bool) :
    EHState × List Action :=
  if levelBelowThreshold then (s, [])
  else
    doRequest fuel s "kernel/log" s.configTimeout
      (Json.obj [("message", Json.str "log-line")])

/-- Base example state: default configuration (debug logging muted), no
bindings, no pending messages. -/
def exBase : EHState :=
  { modulename := "mod", configTimeout := 1000, configPass := "pw",
    debugEnabled := false, bindings := [], pendingMessages := [],
    disposed := false, streamDestroyed := false, uuidCounter := 0 }

/-- Example state with one binding for event e, used at concrete
evaluations. -/
def exOneBinding : EHState :=
  { exBase with bindings := [("e", [⟨0, none⟩])] }

/-- Example state that is already disposed. -/
def exDisposed : EHState :=
  { exBase with disposed := true, streamDestroyed := true }

/-- Example state with one pending correlation entry p1. -/
def exOnePending : EHState :=
  { exBase with pendingMessages := ["p1"] }

/-- Example disposed state whose stream is destroyed and that still holds
a two-binding entry for event e, used to exercise the operations that
ignore the disposed flag. -/
def exDisposed2 : EHState :=
  { exBase with
      disposed := true
      streamDestroyed := true
      bindings := [("e", [⟨0, none⟩, ⟨1, none⟩])] }

/-- With debug logging muted (the default configuration, loglevel Warning),
doRequest is one registration followed by one stream write of the request
envelope, with the fresh uuid as correlation id. -/
theorem doRequest_debug_off (fuel : Nat) (s : EHState) (path : String)
    (tm : Nat) (p : Json) (hdbg : s.debugEnabled = false) :
    doRequest fuel s path tm p =
      ({ s with uuidCounter := s.uuidCounter + 1,
                pendingMessages := pmSet s.pendingMessages (freshUuid s.uuidCounter) },
       [Action.registerPending (freshUuid s.uuidCounter),
        Action.streamWrite (OutMsg.req
          { id := freshUuid s.uuidCounter, pass := s.configPass,
            modulename := s.modulename, eventname := path,
            timeout := tm, payload := p })]) := by
  cases fuel <;> simp [doRequest, doRequestStep, hdbg]

/-- Deleting an id from the registry removes its membership. -/
theorem pmDelete_not_mem (l : List String) (id : String) :
    id ∉ pmDelete l id := by
  simp [pmDelete, List.mem_filter]

/-- C1 counterexample: an inbound envelope whose id matches the pending
entry p1 but whose payload is a plain object is NOT resolved: the
ResponseArray spread at part_000 line 74 throws on the non-iterable
payload before the resolver call and before the delete at line 75, so an
error escapes, no resolution is emitted and the entry stays pending,
refuting the claim for every matching envelope. -/
theorem correlated_response_non_iterable_counterexample :
    "p1" ∈ exOnePending.pendingMessages ∧
    handleData (fun _ _ _ => ([], 0)) exOnePending
        (InMsg.env ⟨"p1", "evt", 5, some (Json.obj [])⟩) =
      ⟨true, exOnePending, []⟩ ∧
    "p1" ∈ (handleData (fun _ _ _ => ([], 0)) exOnePending
        (InMsg.env ⟨"p1", "evt", 5, some (Json.obj [])⟩)).state.pendingMessages ∧
    resolveCount (handleData (fun _ _ _ => ([], 0)) exOnePending
        (InMsg.env ⟨"p1", "evt", 5, some (Json.obj [])⟩)).actions "p1" = 0 :=
  ⟨by decide, rfl, by decide, rfl⟩

/-- C1 amended: an inbound envelope whose id matches a pending entry and
whose payload after the null-coalescing is spreadable (an array or a
string) resolves that entry with that content, removes it, and is not
dispatched as an event (the trace is exactly the one resolution); a later
inbound envelope carrying the same id produces no further resolution of
that id; a matching envelope whose coalesced payload is not spreadable
instead throws from the ResponseArray spread before the delete, emitting
nothing and leaving the state, with the entry still pending, unchanged. -/
theorem correlated_response_resolved_once_amended (fanout : FanoutFn)
    (s : EHState) (d d2 dbad : Eventdata)
    (hpend : d.id ∈ s.pendingMessages) (hid : d2.id = d.id)
    (hiter : (coalescePayload d.payload).canSpread = true)
    (hpendb : dbad.id ∈ s.pendingMessages)
    (hbad : (coalescePayload dbad.payload).canSpread = false) :
    (∃ s1 : EHState,
      handleData fanout s (InMsg.env d) =
        ⟨false, s1, [Action.resolvePending d.id (coalescePayload d.payload)]⟩ ∧
      d.id ∉ s1.pendingMessages ∧
      resolveCount (handleData fanout s1 (InMsg.env d2)).actions d.id = 0) ∧
    handleData fanout s (InMsg.env dbad) = ⟨true, s, []⟩ := by
  constructor
  · refine ⟨{ s with pendingMessages := pmDelete s.pendingMessages d.id },
      ?_, ?_, ?_⟩
    · simp [handleData, hpend, hiter]
    · exact pmDelete_not_mem s.pendingMessages d.id
    · have hnot : d2.id ∉ pmDelete s.pendingMessages d.id := by
        rw [hid]; exact pmDelete_not_mem s.pendingMessages d.id
      simp only [handleData, hnot, if_neg, ite_false]
      cases hdt : dtGet s.bindings d2.eventname <;>
        simp [hdt, resolveCount, Action.isResolveOf]
  · simp [handleData, hpendb, hbad]

/-- C1 amended witness at concrete inputs: a pending entry for id req-1
resolved by an array payload, a duplicate response later carrying the
same id, and a numeric payload that throws instead. -/
theorem correlated_response_resolved_once_amended_witness :
    "req-1" ∉ (handleData (fun _ _ _ => ([], 0))
        { exBase with pendingMessages := ["req-1"] }
        (InMsg.env ⟨"req-1", "kernel/init", 1000,
          some (Json.arr [Json.str "r"])⟩)).state.pendingMessages ∧
    (handleData (fun _ _ _ => ([], 0))
        { exBase with pendingMessages := ["req-1"] }
        (InMsg.env ⟨"req-1", "kernel/init", 1000,
          some (Json.arr [Json.str "r"])⟩)).actions =
      [Action.resolvePending "req-1" (Json.arr [Json.str "r"])] ∧
    resolveCount (handleData (fun _ _ _ => ([], 0))
        (handleData (fun _ _ _ => ([], 0))
          { exBase with pendingMessages := ["req-1"] }
          (InMsg.env ⟨"req-1", "kernel/init", 1000,
            some (Json.arr [Json.str "r"])⟩)).state
        (InMsg.env ⟨"req-1", "kernel/init", 1000,
          some (Json.arr [Json.str "r"])⟩)).actions "req-1" = 0 ∧
    handleData (fun _ _ _ => ([], 0))
        { exBase with pendingMessages := ["req-1"] }
        (InMsg.env ⟨"req-1", "other", 7, some (Json.num 3)⟩) =
      ⟨true, { exBase with pendingMessages := ["req-1"] }, []⟩ := by
  obtain ⟨⟨s1, h1, h2, h3⟩, h4⟩ :=
    correlated_response_resolved_once_amended (fun _ _ _ => ([], 0))
      { exBase with pendingMessages := ["req-1"] }
      ⟨"req-1", "kernel/init", 1000, some (Json.arr [Json.str "r"])⟩
      ⟨"req-1", "kernel/init", 1000, some (Json.arr [Json.str "r"])⟩
      ⟨"req-1", "other", 7, some (Json.num 3)⟩
      (by decide) rfl rfl (by decide) rfl
  rw [h1]
  exact ⟨h2, rfl, h3, h4⟩

/-- C2: an inbound event envelope dispatched to bound handlers produces a
response write carrying the same id as the inbound envelope, this module
name, the completed results as content; its statuscode is 200 with empty
detailedstatus exactly when the unfinished count is zero, otherwise 207
with detailedstatus PARTIAL_TIMEOUT followed by the unfinished count. -/
theorem event_dispatch_response_envelope (fanout : FanoutFn) (s : EHState)
    (d : Eventdata) (dg : List Binding)
    (hpend : d.id ∉ s.pendingMessages)
    (hdt : dtGet s.bindings d.eventname = some dg) :
    ∃ r : RespMsg,
      handleData fanout s (InMsg.env d) =
        ⟨false, s, [Action.invokeHandlers d.eventname d.timeout d.payload,
                    Action.streamWrite (OutMsg.resp r)]⟩ ∧
      r.id = d.id ∧
      r.modulename = s.modulename ∧
      r.content = (fanout dg d.timeout d.payload).fst ∧
      ((r.statuscode = 200 ∧ r.detailedstatus = "") ↔
        (fanout dg d.timeout d.payload).snd = 0) ∧
      ((fanout dg d.timeout d.payload).snd ≠ 0 →
        r.statuscode = 207 ∧
        r.detailedstatus =
          "PARTIAL_TIMEOUT|" ++ toString (fanout dg d.timeout d.payload).snd) := by
  refine ⟨{ id := d.id, modulename := s.modulename,
            statuscode := if (fanout dg d.timeout d.payload).snd = 0 then 200 else 207,
            detailedstatus :=
              if (fanout dg d.timeout d.payload).snd = 0 then ""
              else "PARTIAL_TIMEOUT|" ++ toString (fanout dg d.timeout d.payload).snd,
            content := (fanout dg d.timeout d.payload).fst },
    ?_, rfl, rfl, rfl, ?_, ?_⟩
  · simp [handleData, hpend, hdt]
  · by_cases h : (fanout dg d.timeout d.payload).snd = 0 <;> simp [h]
  · intro h; simp [h]

/-- C2 witness at a concrete input: two bindings, one unfinished, giving
status 207 and detail PARTIAL_TIMEOUT with count 1. -/
theorem event_dispatch_response_envelope_witness :
    (handleData (fun _ _ _ => ([Json.str "ok"], 1))
        { exBase with bindings := [("temp/changed", [⟨1, none⟩, ⟨2, none⟩])] }
        (InMsg.env ⟨"abc", "temp/changed", 50, none⟩)).actions =
      [Action.invokeHandlers "temp/changed" 50 none,
       Action.streamWrite (OutMsg.resp
         { id := "abc", modulename := "mod", statuscode := 207,
           detailedstatus := "PARTIAL_TIMEOUT|1", content := [Json.str "ok"] })] := by
  obtain ⟨r, heq, hid, hmod, hcontent, hiff, hpart⟩ :=
    event_dispatch_response_envelope (fun _ _ _ => ([Json.str "ok"], 1))
      { exBase with bindings := [("temp/changed", [⟨1, none⟩, ⟨2, none⟩])] }
      ⟨"abc", "temp/changed", 50, none⟩ [⟨1, none⟩, ⟨2, none⟩]
      (by decide) (by decide)
  obtain ⟨h207, hdetail⟩ := hpart (by decide)
  rw [heq]
  have : r = { id := "abc", modulename := "mod", statuscode := 207,
               detailedstatus := "PARTIAL_TIMEOUT|1", content := [Json.str "ok"] } := by
    cases r
    simp_all
    exact ⟨rfl, rfl⟩
  rw [this]

/-- C8 counterexample: a malformed inbound message is not discarded
silently. JSON.parse is called without try/catch (part_000 line 67), so
the parse exception escapes the data handler, contradicting the claim
that a decode failure surfaces no error. -/
theorem malformed_message_surfaces_error :
    (handleData (fun _ _ _ => ([], 0)) exBase InMsg.malformed).threw = true ∧
    ¬ (handleData (fun _ _ _ => ([], 0)) exBase InMsg.malformed).threw = false :=
  ⟨rfl, by decide⟩

/-- C8 amended: a malformed message raises an uncaught parse error (state
still unchanged, since the exception fires before any mutation); a falsy
decoded value and an event envelope whose event name has no local
Subscription are discarded silently, with no state change and no
effects. -/
theorem inbound_discard_amended (fanout : FanoutFn) (s : EHState)
    (d : Eventdata)
    (hpend : d.id ∉ s.pendingMessages)
    (hdt : dtGet s.bindings d.eventname = none) :
    handleData fanout s InMsg.malformed = ⟨true, s, []⟩ ∧
    handleData fanout s InMsg.nullMsg = ⟨false, s, []⟩ ∧
    handleData fanout s (InMsg.env d) = ⟨false, s, []⟩ := by
  refine ⟨rfl, rfl, ?_⟩
  simp [handleData, hpend, hdt]

/-- C8 witness at a concrete input: an envelope with an unknown id and an
event name with no subscription is dropped with no side effects. -/
theorem inbound_discard_amended_witness :
    handleData (fun _ _ _ => ([], 0)) exBase
      (InMsg.env ⟨"x", "no/subscriber", 5, none⟩) = ⟨false, exBase, []⟩ := by
  obtain ⟨-, -, h⟩ :=
    inbound_discard_amended (fun _ _ _ => ([], 0)) exBase
      ⟨"x", "no/subscriber", 5, none⟩ (by decide) (by decide)
  exact h

/-- Overwriting or inserting a key in the Dispatch Table makes lookup of
that key return the new value (overwrite branch). -/
theorem dtGet_mapSet (t : List (String × List Binding)) (k : String)
    (v : List Binding) (h : (dtGet t k).isSome) :
    dtGet (t.map (fun kv => if kv.fst = k then (kv.fst, v) else kv)) k
      = some v := by
  induction t with
  | nil => simp [dtGet] at h
  | cons kv rest ih =>
    by_cases hk : kv.fst = k
    · simp [dtGet, hk]
    · simp only [dtGet, hk, if_false] at h
      simpa [dtGet, hk] using ih h

/-- Appending a fresh key to the Dispatch Table makes lookup of that key
return the new value (insert branch). -/
theorem dtGet_append_single (t : List (String × List Binding)) (k : String)
    (v : List Binding) (h : dtGet t k = none) :
    dtGet (t ++ [(k, v)]) k = some v := by
  induction t with
  | nil => simp [dtGet]
  | cons kv rest ih =>
    by_cases hk : kv.fst = k
    · simp [dtGet, hk] at h
    · simp only [dtGet, hk, if_false] at h
      simpa [dtGet, hk] using ih h

/-- Map.set then Map.get on the same key yields the stored value. -/
theorem dtGet_dtSet_self (t : List (String × List Binding)) (k : String)
    (v : List Binding) : dtGet (dtSet t k v) k = some v := by
  cases hg : dtGet t k with
  | some dg =>
    have : dtSet t k v = t.map (fun kv => if kv.fst = k then (kv.fst, v) else kv) := by
      simp [dtSet, hg]
    rw [this]
    exact dtGet_mapSet t k v (by rw [hg]; rfl)
  | none =>
    have : dtSet t k v = t ++ [(k, v)] := by simp [dtSet, hg]
    rw [this]
    exact dtGet_append_single t k v hg

/-- The in-place bind appends one binding to the entry of the key. -/
theorem dtGet_dtBindAppend_self (t : List (String × List Binding))
    (k : String) (b : Binding) (dg : List Binding)
    (h : dtGet t k = some dg) :
    dtGet (dtBindAppend t k b) k = some (dg ++ [b]) := by
  induction t with
  | nil => simp [dtGet] at h
  | cons kv rest ih =>
    by_cases hk : kv.fst = k
    · simp only [dtGet, hk, if_true, Option.some.injEq] at h
      simp [dtBindAppend, dtGet, hk, Delegate.bind, h]
    · simp only [dtGet, hk, if_false] at h
      simpa [dtBindAppend, dtGet, hk] using ih h

/-- Map.delete then Map.get on the same key yields nothing. -/
theorem dtGet_dtDelete_self (t : List (String × List Binding)) (k : String) :
    dtGet (dtDelete t k) k = none := by
  induction t with
  | nil => rfl
  | cons kv rest ih =>
    by_cases hk : kv.fst = k
    · simpa [dtDelete, hk] using ih
    · simpa [dtDelete, dtGet, hk] using ih

/-- Registering one id in the registry keeps every registered id. -/
theorem pmSet_mem_mono (l : List String) (u id : String) (h : id ∈ l) :
    id ∈ pmSet l u := by
  unfold pmSet; split <;> simp [h]

/-- The registered id is a member after registration. -/
theorem pmSet_self_mem (l : List String) (u : String) : u ∈ pmSet l u := by
  unfold pmSet; split
  · assumption
  · simp

/-- C7: subscribe appends one binding even when an identical binding
already exists and then issues no upstream request; a subscribe that finds
no Dispatch Table entry creates one, appends the binding and issues
exactly one kernel/subscribe request; unsubscribe removes exactly one
matching binding (the count of the matched pair drops by one, the length
drops by one, other bindings keep their counts). -/
theorem subscribe_unsubscribe_semantics (fuel : Nat) (s : EHState)
    (en1 en2 : String) (f : Nat) (c : Option Nat) (dg : List Binding)
    (h1 : dtGet s.bindings en1 = some dg)
    (h2 : dtGet s.bindings en2 = none)
    (hdbg : s.debugEnabled = false)
    (hmem : Binding.mk f c ∈ dg) :
    (dtGet (subscribe fuel s en1 f c).fst.bindings en1 = some (dg ++ [⟨f, c⟩]) ∧
     (subscribe fuel s en1 f c).snd = []) ∧
    (dtGet (subscribe fuel s en2 f c).fst.bindings en2 = some [⟨f, c⟩] ∧
     reqWriteCount (subscribe fuel s en2 f c).snd "kernel/subscribe" = 1) ∧
    (dtGet (unsubscribe fuel s en1 f c).fst.bindings en1 =
       (if Delegate.unbind dg ⟨f, c⟩ = [] then none
        else some (Delegate.unbind dg ⟨f, c⟩)) ∧
     (Delegate.unbind dg ⟨f, c⟩).length + 1 = dg.length ∧
     (Delegate.unbind dg ⟨f, c⟩).count ⟨f, c⟩ + 1 = dg.count ⟨f, c⟩ ∧
     ∀ b : Binding, b ≠ ⟨f, c⟩ →
       (Delegate.unbind dg ⟨f, c⟩).count b = dg.count b) := by
  have hdbg1 : ({ s with bindings := dtSet s.bindings en2 [] } : EHState).debugEnabled
      = false := hdbg
  have hstep := doRequest_debug_off fuel
    { s with bindings := dtSet s.bindings en2 [] } "kernel/subscribe"
    s.configTimeout (Json.obj [("eventname", Json.str en2)]) hdbg1
  refine ⟨⟨?_, ?_⟩, ⟨?_, ?_⟩, ?_, ?_, ?_, ?_⟩
  · simp only [subscribe, h1]
    exact dtGet_dtBindAppend_self s.bindings en1 ⟨f, c⟩ dg h1
  · simp [subscribe, h1]
  · simp only [subscribe, h2, request, hstep]
    exact dtGet_dtBindAppend_self _ en2 ⟨f, c⟩ []
      (dtGet_dtSet_self s.bindings en2 [])
  · simp only [subscribe, h2, request, hstep]
    simp [reqWriteCount, Action.isReqWriteOf]
  · by_cases hz : Delegate.unbind dg ⟨f, c⟩ = []
    · simp only [unsubscribe, h1, hz, List.length_nil, if_true]
      exact dtGet_dtDelete_self _ en1
    · have hlen : (Delegate.unbind dg ⟨f, c⟩).length ≠ 0 := by
        simpa [List.length_eq_zero] using hz
      have hdbg2 : ({ s with
          bindings := dtSet s.bindings en1 (Delegate.unbind dg ⟨f, c⟩) } : EHState).debugEnabled
          = false := hdbg
      have hstep2 := doRequest_debug_off fuel
        { s with bindings := dtSet s.bindings en1 (Delegate.unbind dg ⟨f, c⟩) }
        "kernel/unsubscribe" s.configTimeout
        (Json.obj [("eventname", Json.str en1)]) hdbg2
      simp only [unsubscribe, h1, hlen, if_false, request, hstep2, hz, if_neg]
      exact dtGet_dtSet_self s.bindings en1 (Delegate.unbind dg ⟨f, c⟩)
  · have hpos : 0 < dg.length := List.length_pos.mpr (by
      intro hnil; rw [hnil] at hmem; exact (List.not_mem_nil _ hmem))
    have := List.length_erase_of_mem hmem
    unfold Delegate.unbind
    omega
  · have hcount : 0 < dg.count ⟨f, c⟩ := List.count_pos_iff.mpr hmem
    have := List.count_erase_self (⟨f, c⟩ : Binding) dg
    unfold Delegate.unbind
    omega
  · intro b hb
    unfold Delegate.unbind
    exact List.count_erase_of_ne hb dg

/-- C7 witness at a concrete input: one existing binding for event a and
no entry for event b. -/
theorem subscribe_unsubscribe_semantics_witness :
    dtGet (subscribe 0 { exBase with bindings := [("a", [⟨7, none⟩])] }
        "a" 7 none).fst.bindings "a" = some [⟨7, none⟩, ⟨7, none⟩] ∧
    reqWriteCount (subscribe 0 { exBase with bindings := [("a", [⟨7, none⟩])] }
        "b" 7 none).snd "kernel/subscribe" = 1 ∧
    dtGet (unsubscribe 0 { exBase with bindings := [("a", [⟨7, none⟩])] }
        "a" 7 none).fst.bindings "a" = none := by
  obtain ⟨⟨w1, -⟩, ⟨-, w3⟩, w4, -⟩ :=
    subscribe_unsubscribe_semantics 0
      { exBase with bindings := [("a", [⟨7, none⟩])] } "a" "b" 7 none
      [⟨7, none⟩] (by decide) (by decide) rfl (by decide)
  refine ⟨w1, w3, ?_⟩
  rw [w4]
  decide

/-- C5 counterexample: with a single binding for event e, the unsubscribe
call that empties the entry deletes it and writes nothing upstream, so
removal is not paired with a kernel/unsubscribe notification. -/
theorem unsubscribe_empty_sends_no_notification :
    dtGet exOneBinding.bindings "e" = some [⟨0, none⟩] ∧
    dtGet (unsubscribe 0 exOneBinding "e" 0 none).fst.bindings "e" = none ∧
    (unsubscribe 0 exOneBinding "e" 0 none).snd = [] := by
  refine ⟨by decide, by decide, ?_⟩
  rfl

/-- C5 amended: when removing one matching binding empties the entry, the
entry is deleted at that instant and no upstream notification is sent;
the kernel/unsubscribe request is sent exactly when bindings remain after
the removal, the two outcomes being mutually exclusive. -/
theorem unsubscribe_notify_amended (fuel : Nat) (s : EHState) (en : String)
    (f : Nat) (c : Option Nat) (dg : List Binding)
    (h : dtGet s.bindings en = some dg) (hdbg : s.debugEnabled = false) :
    (Delegate.unbind dg ⟨f, c⟩ = [] →
      dtGet (unsubscribe fuel s en f c).fst.bindings en = none ∧
      (unsubscribe fuel s en f c).snd = []) ∧
    (Delegate.unbind dg ⟨f, c⟩ ≠ [] →
      dtGet (unsubscribe fuel s en f c).fst.bindings en =
        some (Delegate.unbind dg ⟨f, c⟩) ∧
      reqWriteCount (unsubscribe fuel s en f c).snd "kernel/unsubscribe" = 1) := by
  constructor
  · intro hz
    constructor
    · simp only [unsubscribe, h, hz, List.length_nil, if_true]
      exact dtGet_dtDelete_self _ en
    · simp [unsubscribe, h, hz]
  · intro hz
    have hlen : (Delegate.unbind dg ⟨f, c⟩).length ≠ 0 := by
      simpa [List.length_eq_zero] using hz
    have hdbg2 : ({ s with
        bindings := dtSet s.bindings en (Delegate.unbind dg ⟨f, c⟩) } : EHState).debugEnabled
        = false := hdbg
    have hstep2 := doRequest_debug_off fuel
      { s with bindings := dtSet s.bindings en (Delegate.unbind dg ⟨f, c⟩) }
      "kernel/unsubscribe" s.configTimeout
      (Json.obj [("eventname", Json.str en)]) hdbg2
    constructor
    · simp only [unsubscribe, h, hlen, if_false, request, hstep2]
      exact dtGet_dtSet_self s.bindings en (Delegate.unbind dg ⟨f, c⟩)
    · simp only [unsubscribe, h, hlen, if_false, request, hstep2]
      simp [reqWriteCount, Action.isReqWriteOf]

/-- C5 amended witness at concrete inputs: one binding yields silent
deletion; two bindings yield a surviving entry plus exactly one
kernel/unsubscribe write. -/
theorem unsubscribe_notify_amended_witness :
    (dtGet (unsubscribe 0 exOneBinding "e" 0 none).fst.bindings "e" = none ∧
     (unsubscribe 0 exOneBinding "e" 0 none).snd = []) ∧
    (dtGet (unsubscribe 0 { exBase with bindings := [("e", [⟨0, none⟩, ⟨1, none⟩])] }
        "e" 0 none).fst.bindings "e" = some [⟨1, none⟩] ∧
     reqWriteCount (unsubscribe 0 { exBase with bindings := [("e", [⟨0, none⟩, ⟨1, none⟩])] }
        "e" 0 none).snd "kernel/unsubscribe" = 1) := by
  obtain ⟨hemp, -⟩ :=
    unsubscribe_notify_amended 0 exOneBinding "e" 0 none [⟨0, none⟩]
      (by decide) rfl
  obtain ⟨-, hkeep⟩ :=
    unsubscribe_notify_amended 0
      { exBase with bindings := [("e", [⟨0, none⟩, ⟨1, none⟩])] } "e" 0 none
      [⟨0, none⟩, ⟨1, none⟩] (by decide) rfl
  refine ⟨hemp (by decide), ?_⟩
  have := hkeep (by decide)
  simpa using this

/-- Inserting an id that is not yet registered changes the registry. -/
theorem pmSet_ne_of_not_mem (l : List String) (u : String) (h : u ∉ l) :
    pmSet l u ≠ l := by
  unfold pmSet
  rw [if_neg h]
  intro hcontra
  have := congrArg List.length hcontra
  simp at this

/-- C3 counterexample: dispose never touches the still-pending entry p1:
it stays registered afterwards and no resolution of it appears in the
dispose trace, so pending entries are dropped rather than fulfilled with
a cancellation outcome before the stream is closed. -/
theorem dispose_drops_pending_counterexample :
    "p1" ∈ exOnePending.pendingMessages ∧
    "p1" ∈ (dispose 0 exOnePending).fst.pendingMessages ∧
    resolveCount (dispose 0 exOnePending).snd "p1" = 0 ∧
    (dispose 0 exOnePending).fst.pendingMessages ≠ [] := by
  exact ⟨by decide, by decide, by decide, by decide⟩

/-- C3 amended: dispose leaves every pending Correlation Registry entry
registered and unresolved (silently dropped, not cancelled); its trace
contains no resolution at all, registers one more entry for its own
kernel/dispose request, and destroys the stream once. -/
theorem dispose_pending_amended (fuel : Nat) (s : EHState)
    (hdbg : s.debugEnabled = false) (hnd : s.disposed = false) :
    (∀ id, id ∈ s.pendingMessages → id ∈ (dispose fuel s).fst.pendingMessages) ∧
    (dispose fuel s).snd.filter Action.isResolve = [] ∧
    destroyCount (dispose fuel s).snd = 1 := by
  have hdbg1 : ({ s with disposed := true, bindings := [] } : EHState).debugEnabled
      = false := hdbg
  have hstep := doRequest_debug_off fuel
    { s with disposed := true, bindings := [] } "kernel/dispose"
    s.configTimeout (Json.obj []) hdbg1
  refine ⟨?_, ?_, ?_⟩
  · intro id hid
    simp only [dispose, hnd, if_false, request, hstep]
    exact pmSet_mem_mono _ _ _ hid
  · simp [dispose, hnd, request, hstep, Action.isResolve]
  · simp [dispose, hnd, request, hstep, destroyCount, Action.isDestroy]

/-- C3 amended witness at a concrete input: the pending entry p1 survives
dispose, no resolution is emitted, the stream is destroyed once. -/
theorem dispose_pending_amended_witness :
    "p1" ∈ (dispose 0 exOnePending).fst.pendingMessages ∧
    (dispose 0 exOnePending).snd.filter Action.isResolve = [] ∧
    destroyCount (dispose 0 exOnePending).snd = 1 := by
  obtain ⟨h1, h2, h3⟩ := dispose_pending_amended 0 exOnePending rfl rfl
  exact ⟨h1 "p1" (by decide), h2, h3⟩

/-- With debug logging muted and the guard not yet set, dispose clears
the bindings, sets the flag, registers and writes one kernel/dispose
request and destroys the stream. -/
theorem dispose_debug_off (fuel : Nat) (s : EHState)
    (hdbg : s.debugEnabled = false) (hnd : s.disposed = false) :
    dispose fuel s =
      ({ s with disposed := true, bindings := [],
                pendingMessages := pmSet s.pendingMessages (freshUuid s.uuidCounter),
                uuidCounter := s.uuidCounter + 1, streamDestroyed := true },
       [Action.registerPending (freshUuid s.uuidCounter),
        Action.streamWrite (OutMsg.req
          { id := freshUuid s.uuidCounter, pass := s.configPass,
            modulename := s.modulename, eventname := "kernel/dispose",
            timeout := s.configTimeout, payload := Json.obj [] }),
        Action.destroyStream]) := by
  cases fuel <;>
    simp [dispose, request, doRequest, doRequestStep, hnd, hdbg]

/-- C4: dispose is idempotent: a second dispose after the first completes
is a no-op (same state, no actions), and across both calls exactly one
kernel/dispose request is written and the stream is destroyed exactly
once. -/
theorem dispose_idempotent (fuel fuel2 : Nat) (s : EHState)
    (hdbg : s.debugEnabled = false) (hnd : s.disposed = false) :
    dispose fuel2 (dispose fuel s).fst = ((dispose fuel s).fst, []) ∧
    reqWriteCount ((dispose fuel s).snd
      ++ (dispose fuel2 (dispose fuel s).fst).snd) "kernel/dispose" = 1 ∧
    destroyCount ((dispose fuel s).snd
      ++ (dispose fuel2 (dispose fuel s).fst).snd) = 1 := by
  have hstep := dispose_debug_off fuel s hdbg hnd
  have hnoop : dispose fuel2 (dispose fuel s).fst = ((dispose fuel s).fst, []) := by
    rw [hstep]
    simp [dispose]
  refine ⟨hnoop, ?_, ?_⟩
  · rw [hnoop, hstep]
    simp [reqWriteCount, Action.isReqWriteOf]
  · rw [hnoop, hstep]
    simp [destroyCount, Action.isDestroy]

/-- C4 witness at a concrete input: double dispose from the base state. -/
theorem dispose_idempotent_witness :
    dispose 0 (dispose 0 exBase).fst = ((dispose 0 exBase).fst, []) ∧
    reqWriteCount ((dispose 0 exBase).snd
      ++ (dispose 0 (dispose 0 exBase).fst).snd) "kernel/dispose" = 1 ∧
    destroyCount ((dispose 0 exBase).snd
      ++ (dispose 0 (dispose 0 exBase).fst).snd) = 1 :=
  dispose_idempotent 0 0 exBase rfl rfl

/-- C6 counterexample: Disposed is not terminal for the other operations:
subscribe on a disposed link still creates a Dispatch Table entry and
still registers a pending kernel/subscribe request, changing both the
Dispatch Table and the Correlation Registry. -/
theorem disposed_not_terminal_counterexample :
    exDisposed.disposed = true ∧
    dtGet (subscribe 0 exDisposed "e" 0 none).fst.bindings "e" = some [⟨0, none⟩] ∧
    (subscribe 0 exDisposed "e" 0 none).fst.pendingMessages
      ≠ exDisposed.pendingMessages := by
  exact ⟨rfl, by decide, by decide⟩

/-- C6 amended: only dispose itself is guarded by the disposed flag: a
further dispose call is a no-op, while request, subscribe, unsubscribe
and Log on a disposed link still behave exactly as before disposal —
request and Log register fresh pending entries in the Correlation
Registry, subscribe creates a Dispatch Table entry and unsubscribe
removes a binding from one — and each of the four still attempts its
stream write even though the stream has already been destroyed. -/
theorem disposed_terminal_amended (fuel : Nat) (s : EHState)
    (en en2 : String) (f : Nat) (c : Option Nat) (p : Json)
    (dg : List Binding)
    (hd : s.disposed = true) (hdbg : s.debugEnabled = false)
    (hdestroyed : s.streamDestroyed = true)
    (hfresh : freshUuid s.uuidCounter ∉ s.pendingMessages)
    (hent : dtGet s.bindings en = none)
    (hent2 : dtGet s.bindings en2 = some dg)
    (hrem : Delegate.unbind dg ⟨f, c⟩ ≠ []) :
    dispose fuel s = (s, []) ∧
    s.streamDestroyed = true ∧
    freshUuid s.uuidCounter ∈ (request fuel s en p).fst.pendingMessages ∧
    (request fuel s en p).fst.pendingMessages ≠ s.pendingMessages ∧
    reqWriteCount (request fuel s en p).snd en = 1 ∧
    dtGet (subscribe fuel s en f c).fst.bindings en = some [⟨f, c⟩] ∧
    reqWriteCount (subscribe fuel s en f c).snd "kernel/subscribe" = 1 ∧
    dtGet (unsubscribe fuel s en2 f c).fst.bindings en2
      = some (Delegate.unbind dg ⟨f, c⟩) ∧
    reqWriteCount (unsubscribe fuel s en2 f c).snd "kernel/unsubscribe" = 1 ∧
    freshUuid s.uuidCounter ∈ (Log fuel s false).fst.pendingMessages ∧
    reqWriteCount (Log fuel s false).snd "kernel/log" = 1 := by
  have hstep := doRequest_debug_off fuel s en s.configTimeout p hdbg
  have hdbg1 : ({ s with bindings := dtSet s.bindings en [] } : EHState).debugEnabled
      = false := hdbg
  have hstep2 := doRequest_debug_off fuel
    { s with bindings := dtSet s.bindings en [] } "kernel/subscribe"
    s.configTimeout (Json.obj [("eventname", Json.str en)]) hdbg1
  have hlen : (Delegate.unbind dg ⟨f, c⟩).length ≠ 0 := by
    simpa [List.length_eq_zero] using hrem
  have hdbg2 : ({ s with
      bindings := dtSet s.bindings en2 (Delegate.unbind dg ⟨f, c⟩) } : EHState).debugEnabled
      = false := hdbg
  have hstep3 := doRequest_debug_off fuel
    { s with bindings := dtSet s.bindings en2 (Delegate.unbind dg ⟨f, c⟩) }
    "kernel/unsubscribe" s.configTimeout
    (Json.obj [("eventname", Json.str en2)]) hdbg2
  have hstepL := doRequest_debug_off fuel s "kernel/log" s.configTimeout
    (Json.obj [("message", Json.str "log-line")]) hdbg
  refine ⟨by simp [dispose, hd], hdestroyed, ?_, ?_, ?_, ?_, ?_, ?_, ?_, ?_, ?_⟩
  · rw [request, hstep]
    exact pmSet_self_mem _ _
  · rw [request, hstep]
    exact pmSet_ne_of_not_mem _ _ hfresh
  · rw [request, hstep]
    simp [reqWriteCount, Action.isReqWriteOf]
  · simp only [subscribe, hent, request, hstep2]
    exact dtGet_dtBindAppend_self _ en ⟨f, c⟩ []
      (dtGet_dtSet_self s.bindings en [])
  · simp only [subscribe, hent, request, hstep2]
    simp [reqWriteCount, Action.isReqWriteOf]
  · simp only [unsubscribe, hent2, hlen, if_false, request, hstep3]
    exact dtGet_dtSet_self s.bindings en2 (Delegate.unbind dg ⟨f, c⟩)
  · simp only [unsubscribe, hent2, hlen, if_false, request, hstep3]
    simp [reqWriteCount, Action.isReqWriteOf]
  · simp only [Log, Bool.false_eq_true, if_false, hstepL]
    exact pmSet_self_mem _ _
  · simp only [Log, Bool.false_eq_true, if_false, hstepL]
    simp [reqWriteCount, Action.isReqWriteOf]

/-- C6 amended witness at a concrete input: a disposed link with a
destroyed stream and a two-binding entry for event e; dispose is a no-op
while request, subscribe, unsubscribe and Log still take effect. -/
theorem disposed_terminal_amended_witness :
    dispose 0 exDisposed2 = (exDisposed2, []) ∧
    "uuid-0" ∈ (request 0 exDisposed2 "evt" (Json.obj [])).fst.pendingMessages ∧
    dtGet (subscribe 0 exDisposed2 "e1" 0 none).fst.bindings "e1"
      = some [⟨0, none⟩] ∧
    dtGet (unsubscribe 0 exDisposed2 "e" 0 none).fst.bindings "e"
      = some [⟨1, none⟩] ∧
    reqWriteCount (Log 0 exDisposed2 false).snd "kernel/log" = 1 := by
  obtain ⟨h1, -, h2, -, -, h3, -, h4, -, -, h5⟩ :=
    disposed_terminal_amended 0 exDisposed2 "e1" "e" 0 none (Json.obj [])
      [⟨0, none⟩, ⟨1, none⟩] rfl rfl rfl (by decide) (by decide) (by decide)
      (by decide)
  refine ⟨h1, h2, h3, ?_, h5⟩
  rw [h4]
  decide

/-- C9: init installs the inbound data handler strictly before the
kernel/init request is written to the stream: the effect trace is
connect, install, register, write, with the install at index 1 and the
single kernel/init write at index 3 carrying the registered id. -/
theorem init_installs_handler_before_init_write (fuel : Nat) (s : EHState)
    (hdbg : s.debugEnabled = false) :
    ∃ u : String, ∃ env : ReqEnvelope,
      (init fuel s).snd =
        [Action.connectStream, Action.installHandler,
         Action.registerPending u, Action.streamWrite (OutMsg.req env)] ∧
      env.eventname = "kernel/init" ∧ env.id = u ∧
      (init fuel s).snd[1]? = some Action.installHandler ∧
      (init fuel s).snd[3]? = some (Action.streamWrite (OutMsg.req env)) := by
  have hstep := doRequest_debug_off fuel s "kernel/init"
    s.configTimeout (Json.obj []) hdbg
  refine ⟨freshUuid s.uuidCounter,
    { id := freshUuid s.uuidCounter, pass := s.configPass,
      modulename := s.modulename, eventname := "kernel/init",
      timeout := s.configTimeout, payload := Json.obj [] },
    ?_, rfl, rfl, ?_, ?_⟩ <;>
  simp [init, hstep]

/-- C9 witness at a concrete input: the base state, with the handler
installation at index 1 and the kernel/init write at index 3. -/
theorem init_installs_handler_before_init_write_witness :
    (init 0 exBase).snd[1]? = some Action.installHandler ∧
    (init 0 exBase).snd[3]? = some (Action.streamWrite (OutMsg.req
      { id := "uuid-0", pass := "pw", modulename := "mod",
        eventname := "kernel/init", timeout := 1000,
        payload := Json.obj [] })) := by
  obtain ⟨u, env, -, -, -, h4, -⟩ :=
    init_installs_handler_before_init_write 0 exBase rfl
  exact ⟨h4, rfl⟩

/-- C10: doRequest registers the freshly generated correlation id in
pendingMessages strictly before the request envelope is written: the
trace is the registration at index 0 followed by the stream write at
index 1, both carrying the same fresh uuid, and the id is registered in
the post-state. -/
theorem request_registers_id_before_write (fuel : Nat) (s : EHState)
    (path : String) (tm : Nat) (p : Json) (hdbg : s.debugEnabled = false) :
    ∃ env : ReqEnvelope,
      (doRequest fuel s path tm p).snd =
        [Action.registerPending env.id, Action.streamWrite (OutMsg.req env)] ∧
      env.id = freshUuid s.uuidCounter ∧
      env.id ∈ (doRequest fuel s path tm p).fst.pendingMessages := by
  refine ⟨{ id := freshUuid s.uuidCounter, pass := s.configPass,
            modulename := s.modulename, eventname := path, timeout := tm,
            payload := p }, ?_, rfl, ?_⟩
  · rw [doRequest_debug_off fuel s path tm p hdbg]
  · rw [doRequest_debug_off fuel s path tm p hdbg]
    exact pmSet_self_mem _ _

/-- C10 witness at a concrete input: a request from the base state. -/
theorem request_registers_id_before_write_witness :
    (doRequest 0 exBase "x/y" 5 (Json.obj [])).snd =
      [Action.registerPending "uuid-0",
       Action.streamWrite (OutMsg.req
         { id := "uuid-0", pass := "pw", modulename := "mod",
           eventname := "x/y", timeout := 5, payload := Json.obj [] })] ∧
    "uuid-0" ∈ (doRequest 0 exBase "x/y" 5 (Json.obj [])).fst.pendingMessages := by
  obtain ⟨env, h1, h2, h3⟩ :=
    request_registers_id_before_write 0 exBase "x/y" 5 (Json.obj []) rfl
  have hid : env.id = "uuid-0" := h2
  rw [hid] at h3
  exact ⟨rfl, h3⟩

end EventHandlerSpec
